import Mathlib

/-!
Shallow embedding of the FastAPI person service (src/main.py): the pydantic
schema models (HairColor, Location, Person, LoginOut), the per-field
constraint checks declared via Field/Query/Path/Form, the collect-all
request binding, the response shaping (response_model_exclude), and the
route handlers create_person, show_person, update_person, login and
post_image.
-/

/-- HairColor enumeration from src/main.py: five string tags. -/
inductive HairColor where
  | white
  | brown
  | black
  | blonde
  | redhead
deriving DecidableEq

/-- The declared string tags of HairColor, in declaration order. -/
def hairColorTags : List String :=
  ["white", "brown", "black", "blonde", "redhead"]

/-- Case-sensitive parse of a raw string against the HairColor tags,
as pydantic coerces a raw enum value. -/
def parseHairColor (s : String) : Option HairColor :=
  if s = "white" then some HairColor.white
  else if s = "brown" then some HairColor.brown
  else if s = "black" then some HairColor.black
  else if s = "blonde" then some HairColor.blonde
  else if s = "redhead" then some HairColor.redhead
  else none

/-- Calendar date, used for the PastDate field date_of_birth. -/
structure Date where
  year : Nat
  month : Nat
  day : Nat
deriving DecidableEq

/-- Lexicographic strict order on calendar dates. -/
def dateLt (a b : Date) : Prop :=
  a.year < b.year ∨ (a.year = b.year ∧
    (a.month < b.month ∨ (a.month = b.month ∧ a.day < b.day)))

/-- Lexicographic order on calendar dates, inclusive at the day. -/
def dateLe (a b : Date) : Prop :=
  a.year < b.year ∨ (a.year = b.year ∧
    (a.month < b.month ∨ (a.month = b.month ∧ a.day ≤ b.day)))

instance (a b : Date) : Decidable (dateLt a b) := by
  unfold dateLt; infer_instance

instance (a b : Date) : Decidable (dateLe a b) := by
  unfold dateLe; infer_instance

/-- Violation kinds of the constraint primitives (spec section 7 taxonomy). -/
inductive ViolationKind where
  | MissingField
  | LengthOutOfRange
  | ValueOutOfRange
  | InvalidEnumValue
  | InvalidFormat
  | DateNotInPast
  | TypeCoercionError
deriving DecidableEq

/-- A validation failure attributed to one field. -/
abbrev FieldError := String × ViolationKind

/-- stringLength constraint: pydantic min_length and max_length on str. -/
def checkStringLength (mi ma : Nat) (s : String) : Option ViolationKind :=
  if s.length < mi ∨ ma < s.length then some ViolationKind.LengthOutOfRange
  else none

/-- stringLength constraint with only a lower bound, as declared on the
password field via min_length. -/
def checkMinLength (mi : Nat) (s : String) : Option ViolationKind :=
  if s.length < mi then some ViolationKind.LengthOutOfRange
  else none

/-- stringLength constraint with only an upper bound, as declared on the
LoginOut username field via max_length. -/
def checkMaxLength (ma : Nat) (s : String) : Option ViolationKind :=
  if ma < s.length then some ViolationKind.LengthOutOfRange
  else none

/-- numericRange constraint with an exclusive lower bound and an inclusive
upper bound, as declared on Person.age via gt and le. -/
def checkGtLe (gtBound leBound v : Int) : Option ViolationKind :=
  if v ≤ gtBound ∨ leBound < v then some ViolationKind.ValueOutOfRange
  else none

/-- numericRange constraint with only an exclusive lower bound, as declared
on the person_id path parameter via gt. -/
def checkGt (gtBound v : Int) : Option ViolationKind :=
  if v ≤ gtBound then some ViolationKind.ValueOutOfRange
  else none

/-- enumMember constraint on the optional hair_color field: absence is
valid, a present raw string must parse as a HairColor tag. -/
def checkHairColor : Option String → Option ViolationKind
  | none => none
  | some s =>
    match parseHairColor s with
    | some _ => none
    | none => some ViolationKind.InvalidEnumValue

/-- pastDate constraint on an already parsed calendar date: the value must
be strictly earlier than the current date at validation time. -/
def checkPastDate (d today : Date) : Option ViolationKind :=
  if dateLt d today then none
  else some ViolationKind.DateNotInPast

/-- Split a character list at the first occurrence of a character,
returning the parts before and after it. -/
def splitAtChar (c : Char) : List Char → Option (List Char × List Char)
  | [] => none
  | x :: xs =>
    if x = c then some ([], xs)
    else
      match splitAtChar c xs with
      | some (l, r) => some (x :: l, r)
      | none => none

/-- Modelled from the spec: the emailFormat primitive of pydantic EmailStr,
whose code is not part of this repository. The spec requires a local part,
an at sign, and a domain with at least one dot. -/
def emailValid (s : String) : Bool :=
  match splitAtChar '@' s.data with
  | some (localPart, domain) =>
    !localPart.isEmpty && !domain.isEmpty &&
      domain.contains '.' && !domain.contains '@'
  | none => false

/-- Modelled from the spec: the urlFormat primitive of pydantic AnyUrl,
whose code is not part of this repository. The spec requires a scheme and
an authority: scheme, a colon, two slashes, then a nonempty remainder. -/
def urlValid (s : String) : Bool :=
  match splitAtChar ':' s.data with
  | some (scheme, rest) =>
    !scheme.isEmpty &&
      (match rest with
       | '/' :: '/' :: authority => !authority.isEmpty
       | _ => false)
  | none => false

/-- urlFormat check on the optional personal_website field. -/
def checkUrl : Option String → Option ViolationKind
  | none => none
  | some s => if urlValid s then none else some ViolationKind.InvalidFormat

/-- emailFormat check on the required email field. -/
def checkEmail (s : String) : Option ViolationKind :=
  if emailValid s then none else some ViolationKind.InvalidFormat

/-- Raw Person payload as decoded from the request body, before the
constraint checks run. The date is already parsed as a calendar date. -/
structure RawPerson where
  first_name : String
  last_name : String
  age : Int
  hair_color : Option String
  is_married : Option Bool
  personal_website : Option String
  date_of_birth : Date
  email : String
  password : String
deriving DecidableEq

/-- Bound Person instance, the typed result of a successful binding. -/
structure Person where
  first_name : String
  last_name : String
  age : Int
  hair_color : Option HairColor
  is_married : Option Bool
  personal_website : Option String
  date_of_birth : Date
  email : String
  password : String
deriving DecidableEq

/-- Attribute an optional violation to a field name. -/
def fieldErr (field : String) : Option ViolationKind → List FieldError
  | some k => [(field, k)]
  | none => []

/-- All constraint violations of a raw Person payload, collected across
the fields in declaration order, as pydantic aggregates them. -/
def personErrors (raw : RawPerson) (today : Date) : List FieldError :=
  fieldErr "first_name" (checkStringLength 1 50 raw.first_name) ++
  fieldErr "last_name" (checkStringLength 1 50 raw.last_name) ++
  fieldErr "age" (checkGtLe 0 115 raw.age) ++
  fieldErr "hair_color" (checkHairColor raw.hair_color) ++
  fieldErr "personal_website" (checkUrl raw.personal_website) ++
  fieldErr "date_of_birth" (checkPastDate raw.date_of_birth today) ++
  fieldErr "email" (checkEmail raw.email) ++
  fieldErr "password" (checkMinLength 8 raw.password)

/-- The typed Person built from a raw payload once every check passed. -/
def boundPerson (raw : RawPerson) : Person :=
  ⟨raw.first_name, raw.last_name, raw.age,
    raw.hair_color.bind parseHairColor, raw.is_married,
    raw.personal_website, raw.date_of_birth, raw.email, raw.password⟩

/-- Binding a Person from a request body: every field constraint is
checked and all violations are reported together; on success the typed
instance is produced. -/
def validatePerson (raw : RawPerson) (today : Date) :
    Except (List FieldError) Person :=
  if (personErrors raw today).isEmpty then Except.ok (boundPerson raw)
  else Except.error (personErrors raw today)

/-- Raw Location payload from the request body. -/
structure RawLocation where
  city : String
  state : String
  country : String
deriving DecidableEq

/-- Bound Location instance. -/
structure Location where
  city : String
  state : String
  country : String
deriving DecidableEq

/-- All constraint violations of a raw Location payload: city and state
take 1 to 86 characters, country 4 to 56. -/
def locationErrors (raw : RawLocation) : List FieldError :=
  fieldErr "city" (checkStringLength 1 86 raw.city) ++
  fieldErr "state" (checkStringLength 1 86 raw.state) ++
  fieldErr "country" (checkStringLength 4 56 raw.country)

/-- The typed Location built from a raw payload. -/
def boundLocation (raw : RawLocation) : Location :=
  ⟨raw.city, raw.state, raw.country⟩

/-- Binding a Location from a request body. -/
def validateLocation (raw : RawLocation) :
    Except (List FieldError) Location :=
  if (locationErrors raw).isEmpty then Except.ok (boundLocation raw)
  else Except.error (locationErrors raw)

/-- JSON-like value appearing in a serialized response map. -/
inductive Value where
  | str (s : String)
  | int (n : Int)
  | bool (b : Bool)
  | date (d : Date)
  | hair (h : HairColor)
  | rat (q : Rat)
  | null
deriving DecidableEq

/-- Serialize an optional value, absent becoming null. -/
def optValue (f : α → Value) : Option α → Value
  | none => Value.null
  | some a => f a

/-- Serialization of a bound Person as an ordered field map, in field
declaration order, as dict(person) produces it. -/
def personDict (p : Person) : List (String × Value) :=
  [("first_name", Value.str p.first_name),
   ("last_name", Value.str p.last_name),
   ("age", Value.int p.age),
   ("hair_color", optValue Value.hair p.hair_color),
   ("is_married", optValue Value.bool p.is_married),
   ("personal_website", optValue Value.str p.personal_website),
   ("date_of_birth", Value.date p.date_of_birth),
   ("email", Value.str p.email),
   ("password", Value.str p.password)]

/-- Serialization of a bound Location as an ordered field map. -/
def locationDict (l : Location) : List (String × Value) :=
  [("city", Value.str l.city),
   ("state", Value.str l.state),
   ("country", Value.str l.country)]

/-- Response Shaper: drop the fields whose names are in the exclude set,
preserving declaration order, as response_model_exclude does. -/
def excludeFields (excl : List String) (body : List (String × Value)) :
    List (String × Value) :=
  body.filter (fun kv => !excl.contains kv.1)

/-- Python dict.update semantics: keys of the first map keep their
position with updated values, new keys of the second map are appended. -/
def updateDict (d1 d2 : List (String × Value)) : List (String × Value) :=
  d1.map (fun kv =>
    match d2.find? (fun kv2 => kv2.1 == kv.1) with
    | some kv2 => (kv.1, kv2.2)
    | none => kv) ++
  d2.filter (fun kv2 => (d1.find? (fun kv => kv.1 == kv2.1)).isNone)

/-- Outcome of a routed request: a binding-phase validation failure, a
deliberate HTTPException from the handler, or a success status and body. -/
inductive HandlerResult (β : Type) where
  | validationFailure (errs : List FieldError)
  | httpError (status : Nat) (detail : String)
  | success (status : Nat) (body : β)
deriving DecidableEq

/-- POST /person/new: bind the Person body, return 201 with the person
shaped through response_model_exclude of password. -/
def create_person (raw : RawPerson) (today : Date) :
    HandlerResult (List (String × Value)) :=
  match validatePerson raw today with
  | Except.error errs => HandlerResult.validationFailure errs
  | Except.ok p =>
    HandlerResult.success 201 (excludeFields ["password"] (personDict p))

/-- The fixed in-memory registry of known person identifiers. -/
def persons : List Int := [1, 2, 3, 4, 5]

/-- GET /person/detail/person_id: the path parameter must be a positive
integer; an identifier outside the registry raises a 404 HTTPException
with the literal detail string, otherwise 200. -/
def show_person (person_id : Int) : HandlerResult (List (Int × String)) :=
  match checkGt 0 person_id with
  | some k => HandlerResult.validationFailure [("person_id", k)]
  | none =>
    if person_id ∉ persons then
      HandlerResult.httpError 404 "This person does not exist :("
    else
      HandlerResult.success 200 [(person_id, "This person exists!")]

/-- PUT /person/person_id: bind the positive path parameter and the two
body schemas, collecting all violations; on success merge dict(person)
with dict(location) and return 200. No registry lookup happens here. -/
def update_person (person_id : Int) (rawP : RawPerson) (rawL : RawLocation)
    (today : Date) : HandlerResult (List (String × Value)) :=
  let errs := fieldErr "person_id" (checkGt 0 person_id) ++
    personErrors rawP today ++ locationErrors rawL
  if errs.isEmpty then
    HandlerResult.success 200
      (updateDict (personDict (boundPerson rawP))
        (locationDict (boundLocation rawL)))
  else HandlerResult.validationFailure errs

/-- LoginOut response model: only a username, at most 20 characters. -/
structure LoginOut where
  username : String
deriving DecidableEq

/-- Serialization of a LoginOut response. -/
def loginOutDict (lo : LoginOut) : List (String × Value) :=
  [("username", Value.str lo.username)]

/-- Form binding for POST /login: both fields are declared as bare
required Form parameters with no constraints, so any present pair of
strings binds successfully. -/
def bind_login_form (username password : String) :
    Except (List FieldError) (String × String) :=
  Except.ok (username, password)

/-- Constructing a LoginOut inside the handler: pydantic validates the
max_length 20 constraint at construction time. -/
def mkLoginOut (username : String) : Except (List FieldError) LoginOut :=
  match checkMaxLength 20 username with
  | some k => Except.error [("username", k)]
  | none => Except.ok ⟨username⟩

/-- POST /login: bind the form, then build LoginOut from the username
only; an error on the left is a failure escaping the handler body, not a
binding-phase validation error. The password is never used. -/
def login (username password : String) :
    Except (List FieldError) (HandlerResult LoginOut) :=
  match bind_login_form username password with
  | Except.error errs => Except.ok (HandlerResult.validationFailure errs)
  | Except.ok (u, _) =>
    match mkLoginOut u with
    | Except.error errs => Except.error errs
    | Except.ok lo => Except.ok (HandlerResult.success 200 lo)

/-- An uploaded file: filename, declared content type, raw byte content. -/
structure UploadFileM where
  filename : String
  content_type : String
  content : List Nat
deriving DecidableEq

/-- Round a rational to the nearest integer, ties to even, as Python
round does on an exactly represented value. -/
def roundHalfEven (q : Rat) : Int :=
  if q - ⌊q⌋ < 1 / 2 then ⌊q⌋
  else if (1 : Rat) / 2 < q - ⌊q⌋ then ⌊q⌋ + 1
  else if ⌊q⌋ % 2 = 0 then ⌊q⌋ else ⌊q⌋ + 1

/-- Size in kilobytes of an n byte file, rounded to two decimal places:
round(n / 1024, ndigits = 2). -/
def sizeKB (n : Nat) : Rat :=
  (roundHalfEven ((n : Rat) * 100 / 1024) : Rat) / 100

/-- The per-file entry built by the post_image list comprehension. -/
def imageInfo (image : UploadFileM) : List (String × Value) :=
  [("filename", Value.str image.filename),
   ("Format", Value.str image.content_type),
   ("Size(kb)", Value.rat (sizeKB image.content.length))]

/-- POST /post-image: one entry per uploaded file, in upload order. -/
def post_image (images : List UploadFileM) : List (List (String × Value)) :=
  images.map imageInfo

/-! Sample payloads used by the concrete witnesses. -/

/-- A valid raw Person payload. -/
def sampleRawPerson : RawPerson :=
  ⟨"Daniel", "Salmeron", 19, none, some false, none,
    ⟨2000, 1, 1⟩, "mail@salmeron.com", "12345678"⟩

/-- A raw Person payload whose age violates the le 115 bound. -/
def sampleRawBadAge : RawPerson :=
  ⟨"Daniel", "Salmeron", 200, none, some false, none,
    ⟨2000, 1, 1⟩, "mail@salmeron.com", "12345678"⟩

/-- A raw Person payload whose hair_color is not a HairColor tag. -/
def sampleRawBadHair : RawPerson :=
  ⟨"Daniel", "Salmeron", 19, some "purple", some false, none,
    ⟨2000, 1, 1⟩, "mail@salmeron.com", "12345678"⟩

/-- A valid raw Location payload. -/
def sampleRawLocation : RawLocation := ⟨"Detroit", "Michigan", "Mexico"⟩

/-- A fixed current date for the witnesses. -/
def sampleToday : Date := ⟨2022, 6, 15⟩

/-! Helper lemmas about binding. -/

/-- Binding a Person succeeds exactly when no field check failed, and
then yields the typed instance built from the raw payload. -/
theorem validatePerson_ok_iff (raw : RawPerson) (today : Date) (p : Person) :
    validatePerson raw today = Except.ok p ↔
      personErrors raw today = [] ∧ p = boundPerson raw := by
  unfold validatePerson
  by_cases h : (personErrors raw today).isEmpty
  · rw [if_pos h]
    simp [List.isEmpty_iff.mp h, eq_comm]
  · rw [if_neg h]
    rw [List.isEmpty_iff] at h
    simp [h]

/-- Binding a Location succeeds exactly when no field check failed. -/
theorem validateLocation_ok_iff (raw : RawLocation) (l : Location) :
    validateLocation raw = Except.ok l ↔
      locationErrors raw = [] ∧ l = boundLocation raw := by
  unfold validateLocation
  by_cases h : (locationErrors raw).isEmpty
  · rw [if_pos h]
    simp [List.isEmpty_iff.mp h, eq_comm]
  · rw [if_neg h]
    rw [List.isEmpty_iff] at h
    simp [h]

/-- A nonempty error list makes Person binding fail with that list. -/
theorem validatePerson_error (raw : RawPerson) (today : Date)
    (h : personErrors raw today ≠ []) :
    validatePerson raw today = Except.error (personErrors raw today) := by
  unfold validatePerson
  rw [if_neg]
  rw [List.isEmpty_iff]
  exact h

/-- Rounding to the nearest integer moves a rational by at most one half. -/
theorem abs_roundHalfEven_sub_le (q : Rat) :
    |(roundHalfEven q : Rat) - q| ≤ 1 / 2 := by
  unfold roundHalfEven
  have h1 : (⌊q⌋ : Rat) ≤ q := Int.floor_le q
  have h2 : q < ⌊q⌋ + 1 := Int.lt_floor_add_one q
  split_ifs with ha hb hc
  all_goals rw [abs_le]
  all_goals push_cast
  all_goals constructor <;> linarith

/-- sizeKB is within half a hundredth of the exact size in kilobytes. -/
theorem sizeKB_close (n : Nat) :
    |sizeKB n - (n : Rat) / 1024| ≤ 1 / 200 := by
  unfold sizeKB
  have h := abs_roundHalfEven_sub_le ((n : Rat) * 100 / 1024)
  have key : (roundHalfEven ((n : Rat) * 100 / 1024) : Rat) / 100 -
      (n : Rat) / 1024 =
      ((roundHalfEven ((n : Rat) * 100 / 1024) : Rat) -
        (n : Rat) * 100 / 1024) / 100 := by ring
  rw [key, abs_div]
  rw [abs_of_pos (by norm_num : (0 : Rat) < 100)]
  linarith

/-- sizeKB is an integer multiple of one hundredth. -/
theorem sizeKB_two_decimals (n : Nat) : (sizeKB n * 100).den = 1 := by
  unfold sizeKB
  rw [div_mul_cancel₀ _ (by norm_num : (100 : Rat) ≠ 0)]
  exact Rat.den_intCast _

/-- C7: uploading exactly two files to POST /post-image returns a list of
exactly two entries, one per file in upload order, each carrying the
filename, the content type, and a sizeKB value equal to the byte length
divided by 1024 rounded to two decimal places (within half a hundredth of
the exact ratio and a multiple of one hundredth). -/
theorem post_image_two_files (f1 f2 : UploadFileM) :
    post_image [f1, f2] = [imageInfo f1, imageInfo f2] ∧
    (post_image [f1, f2]).length = 2 ∧
    (∀ f : UploadFileM, imageInfo f =
      [("filename", Value.str f.filename),
       ("Format", Value.str f.content_type),
       ("Size(kb)", Value.rat (sizeKB f.content.length))]) ∧
    (∀ n : Nat, |sizeKB n - (n : Rat) / 1024| ≤ 1 / 200 ∧
      (sizeKB n * 100).den = 1) := by
  refine ⟨rfl, rfl, fun f => rfl, fun n => ⟨sizeKB_close n, sizeKB_two_decimals n⟩⟩

/-- C3: GET /person/detail with person_id 1, a member of the fixed
registry, returns 200; with person_id 999, not a member, it returns 404
whose detail string is exactly the literal from the source. -/
theorem show_person_registry_membership :
    show_person 1 = HandlerResult.success 200 [(1, "This person exists!")] ∧
    show_person 999 =
      HandlerResult.httpError 404 "This person does not exist :(" ∧
    (1 : Int) ∈ persons ∧ (999 : Int) ∉ persons := by
  refine ⟨rfl, rfl, by decide, by decide⟩

/-- C10: the login form declares no length bound on username, so a
21-character username binds successfully, but constructing the LoginOut
response inside the handler violates the max-length-20 constraint: the
failure escapes the handler, it is not a binding-phase validation error. -/
theorem login_overlong_username_fails_in_handler :
    bind_login_form "abcdefghijklmnopqrstu" "pw" =
      Except.ok ("abcdefghijklmnopqrstu", "pw") ∧
    20 < "abcdefghijklmnopqrstu".length ∧
    mkLoginOut "abcdefghijklmnopqrstu" =
      Except.error [("username", ViolationKind.LengthOutOfRange)] ∧
    login "abcdefghijklmnopqrstu" "pw" =
      Except.error [("username", ViolationKind.LengthOutOfRange)] := by
  refine ⟨rfl, by decide, rfl, rfl⟩

/-- A string outside the tag list does not parse as a HairColor. -/
theorem parseHairColor_eq_none (s : String) (h : s ∉ hairColorTags) :
    parseHairColor s = none := by
  simp [hairColorTags] at h
  obtain ⟨h1, h2, h3, h4, h5⟩ := h
  unfold parseHairColor
  rw [if_neg h1, if_neg h2, if_neg h3, if_neg h4, if_neg h5]

/-- A string in the tag list passes the hair_color enum check. -/
theorem checkHairColor_of_mem (s : String) (h : s ∈ hairColorTags) :
    checkHairColor (some s) = none := by
  simp [hairColorTags] at h
  rcases h with h | h | h | h | h <;> subst h <;> rfl

/-- A date on or after another is not strictly before it. -/
theorem dateLe_not_lt (a b : Date) (h : dateLe a b) : ¬ dateLt b a := by
  obtain ⟨y1, m1, d1⟩ := a
  obtain ⟨y2, m2, d2⟩ := b
  unfold dateLe at h
  unfold dateLt
  dsimp only at h ⊢
  omega

/-- C4: whenever age is nonpositive or exceeds 115, binding a Person fails
and the collected errors attribute a ValueOutOfRange to the age field,
whatever the other fields hold; moreover the age check passes exactly when
0 lt age and age le 115. -/
theorem person_age_out_of_range (raw : RawPerson) (today : Date)
    (h : raw.age ≤ 0 ∨ 115 < raw.age) :
    (∃ errs, validatePerson raw today = Except.error errs ∧
      ("age", ViolationKind.ValueOutOfRange) ∈ errs) ∧
    (∀ a : Int, checkGtLe 0 115 a = none ↔ 0 < a ∧ a ≤ 115) := by
  constructor
  · have hage : checkGtLe 0 115 raw.age = some ViolationKind.ValueOutOfRange := by
      unfold checkGtLe
      rw [if_pos h]
    have hmem : ("age", ViolationKind.ValueOutOfRange) ∈ personErrors raw today := by
      unfold personErrors
      simp [fieldErr, hage, List.mem_append]
    exact ⟨personErrors raw today,
      validatePerson_error raw today (List.ne_nil_of_mem hmem), hmem⟩
  · intro a
    simp [checkGtLe]

/-- C4 witness: a payload with age 200 fails with ValueOutOfRange on age. -/
theorem person_age_out_of_range_witness :
    (sampleRawBadAge.age ≤ 0 ∨ 115 < sampleRawBadAge.age) ∧
    (∃ errs, validatePerson sampleRawBadAge sampleToday = Except.error errs ∧
      ("age", ViolationKind.ValueOutOfRange) ∈ errs) :=
  ⟨by decide, (person_age_out_of_range sampleRawBadAge sampleToday (by decide)).1⟩

/-- C5: a date_of_birth on or after the current date makes Person binding
fail with DateNotInPast on date_of_birth; a date strictly earlier than the
current date passes the pastDate check. -/
theorem person_dob_not_in_past (raw : RawPerson) (today : Date)
    (h : dateLe today raw.date_of_birth) :
    (∃ errs, validatePerson raw today = Except.error errs ∧
      ("date_of_birth", ViolationKind.DateNotInPast) ∈ errs) ∧
    (∀ d t : Date, dateLt d t → checkPastDate d t = none) := by
  constructor
  · have hdob : checkPastDate raw.date_of_birth today =
        some ViolationKind.DateNotInPast := by
      unfold checkPastDate
      rw [if_neg (dateLe_not_lt today raw.date_of_birth h)]
    have hmem : ("date_of_birth", ViolationKind.DateNotInPast) ∈
        personErrors raw today := by
      unfold personErrors
      simp [fieldErr, hdob, List.mem_append]
    exact ⟨personErrors raw today,
      validatePerson_error raw today (List.ne_nil_of_mem hmem), hmem⟩
  · intro d t hlt
    unfold checkPastDate
    rw [if_pos hlt]

/-- C5 witness: with the current date 1999-01-01 the sample birth date
2000-01-01 is in the future, so binding fails with DateNotInPast. -/
theorem person_dob_not_in_past_witness :
    dateLe ⟨1999, 1, 1⟩ sampleRawPerson.date_of_birth ∧
    (∃ errs, validatePerson sampleRawPerson ⟨1999, 1, 1⟩ = Except.error errs ∧
      ("date_of_birth", ViolationKind.DateNotInPast) ∈ errs) :=
  ⟨by decide, (person_dob_not_in_past sampleRawPerson ⟨1999, 1, 1⟩ (by decide)).1⟩

/-- C6: a present hair_color outside the five declared tags makes Person
binding fail with InvalidEnumValue on hair_color; an absent hair_color
passes the check and the bound instance carries the absent value. -/
theorem person_hair_color_enum (raw : RawPerson) (today : Date) (s : String)
    (hs : raw.hair_color = some s) (hmem : s ∉ hairColorTags) :
    (∃ errs, validatePerson raw today = Except.error errs ∧
      ("hair_color", ViolationKind.InvalidEnumValue) ∈ errs) ∧
    checkHairColor none = none ∧
    (∀ (raw2 : RawPerson) (t2 : Date) (p : Person),
      raw2.hair_color = none → validatePerson raw2 t2 = Except.ok p →
      p.hair_color = none) := by
  refine ⟨?_, rfl, ?_⟩
  · have hhc : checkHairColor raw.hair_color =
        some ViolationKind.InvalidEnumValue := by
      rw [hs]
      simp [checkHairColor, parseHairColor_eq_none s hmem]
    have hin : ("hair_color", ViolationKind.InvalidEnumValue) ∈
        personErrors raw today := by
      unfold personErrors
      simp [fieldErr, hhc, List.mem_append]
    exact ⟨personErrors raw today,
      validatePerson_error raw today (List.ne_nil_of_mem hin), hin⟩
  · intro raw2 t2 p habsent hok
    have hp := ((validatePerson_ok_iff raw2 t2 p).mp hok).2
    rw [hp]
    unfold boundPerson
    rw [habsent]
    rfl

/-- C6 witness: the tag purple is rejected with InvalidEnumValue. -/
theorem person_hair_color_enum_witness :
    sampleRawBadHair.hair_color = some "purple" ∧
    "purple" ∉ hairColorTags ∧
    (∃ errs, validatePerson sampleRawBadHair sampleToday = Except.error errs ∧
      ("hair_color", ViolationKind.InvalidEnumValue) ∈ errs) :=
  ⟨rfl, by decide,
    (person_hair_color_enum sampleRawBadHair sampleToday "purple" rfl (by decide)).1⟩

/-- C1: whenever every declared Person field constraint is satisfied,
binding on POST /person/new succeeds, and the response shaped through the
password exclude-set lists every Person field except password in original
declaration order; the password key never appears in the output. -/
theorem create_person_shapes_out_password (raw : RawPerson) (today : Date)
    (h1 : 1 ≤ raw.first_name.length ∧ raw.first_name.length ≤ 50)
    (h2 : 1 ≤ raw.last_name.length ∧ raw.last_name.length ≤ 50)
    (h3 : 0 < raw.age ∧ raw.age ≤ 115)
    (h4 : ∀ s, raw.hair_color = some s → s ∈ hairColorTags)
    (h5 : ∀ s, raw.personal_website = some s → urlValid s = true)
    (h6 : dateLt raw.date_of_birth today)
    (h7 : emailValid raw.email = true)
    (h8 : 8 ≤ raw.password.length) :
    validatePerson raw today = Except.ok (boundPerson raw) ∧
    create_person raw today = HandlerResult.success 201
      (excludeFields ["password"] (personDict (boundPerson raw))) ∧
    (excludeFields ["password"] (personDict (boundPerson raw))).map Prod.fst =
      ["first_name", "last_name", "age", "hair_color", "is_married",
       "personal_website", "date_of_birth", "email"] ∧
    "password" ∉ (excludeFields ["password"]
      (personDict (boundPerson raw))).map Prod.fst := by
  have e1 : checkStringLength 1 50 raw.first_name = none := by
    unfold checkStringLength
    rw [if_neg (by omega)]
  have e2 : checkStringLength 1 50 raw.last_name = none := by
    unfold checkStringLength
    rw [if_neg (by omega)]
  have e3 : checkGtLe 0 115 raw.age = none := by
    unfold checkGtLe
    rw [if_neg (by omega)]
  have e4 : checkHairColor raw.hair_color = none := by
    cases hc : raw.hair_color with
    | none => rfl
    | some s => exact checkHairColor_of_mem s (h4 s hc)
  have e5 : checkUrl raw.personal_website = none := by
    cases hc : raw.personal_website with
    | none => rfl
    | some s => simp [checkUrl, h5 s hc]
  have e6 : checkPastDate raw.date_of_birth today = none := by
    unfold checkPastDate
    rw [if_pos h6]
  have e7 : checkEmail raw.email = none := by
    unfold checkEmail
    rw [h7]
    rfl
  have e8 : checkMinLength 8 raw.password = none := by
    unfold checkMinLength
    rw [if_neg (by omega)]
  have hE : personErrors raw today = [] := by
    unfold personErrors
    rw [e1, e2, e3, e4, e5, e6, e7, e8]
    rfl
  have hok : validatePerson raw today = Except.ok (boundPerson raw) := by
    unfold validatePerson
    rw [hE]
    rfl
  refine ⟨hok, ?_, rfl, ?_⟩
  · unfold create_person
    rw [hok]
  · show ("password" : String) ∉
      ["first_name", "last_name", "age", "hair_color", "is_married",
       "personal_website", "date_of_birth", "email"]
    decide

/-- C1 witness: the sample payload binds and is shaped without password. -/
theorem create_person_shapes_out_password_witness :
    (1 ≤ sampleRawPerson.first_name.length ∧
      sampleRawPerson.first_name.length ≤ 50) ∧
    (0 < sampleRawPerson.age ∧ sampleRawPerson.age ≤ 115) ∧
    dateLt sampleRawPerson.date_of_birth sampleToday ∧
    emailValid sampleRawPerson.email = true ∧
    8 ≤ sampleRawPerson.password.length ∧
    (validatePerson sampleRawPerson sampleToday =
      Except.ok (boundPerson sampleRawPerson) ∧
    create_person sampleRawPerson sampleToday = HandlerResult.success 201
      (excludeFields ["password"] (personDict (boundPerson sampleRawPerson))) ∧
    (excludeFields ["password"]
      (personDict (boundPerson sampleRawPerson))).map Prod.fst =
      ["first_name", "last_name", "age", "hair_color", "is_married",
       "personal_website", "date_of_birth", "email"] ∧
    "password" ∉ (excludeFields ["password"]
      (personDict (boundPerson sampleRawPerson))).map Prod.fst) :=
  ⟨by decide, by decide, by decide, by decide, by decide,
    create_person_shapes_out_password sampleRawPerson sampleToday
      (by decide) (by decide) (by decide)
      (fun s hs => Option.noConfusion hs)
      (fun s hs => Option.noConfusion hs)
      (by decide) (by decide) (by decide)⟩

/-- Merging the serialized person and location maps appends the location
fields, since the two schemas share no field name. -/
theorem updateDict_person_location (p : Person) (l : Location) :
    updateDict (personDict p) (locationDict l) =
      personDict p ++ locationDict l := rfl

/-- A positive person_id and two successfully bound bodies make
PUT /person/person_id return 200 with the merged map. -/
theorem update_person_success (person_id : Int) (rawP : RawPerson)
    (rawL : RawLocation) (today : Date) (p : Person) (l : Location)
    (hpid : 0 < person_id)
    (hp : validatePerson rawP today = Except.ok p)
    (hl : validateLocation rawL = Except.ok l) :
    update_person person_id rawP rawL today =
      HandlerResult.success 200 (personDict p ++ locationDict l) := by
  obtain ⟨hpe, hpb⟩ := (validatePerson_ok_iff rawP today p).mp hp
  obtain ⟨hle, hlb⟩ := (validateLocation_ok_iff rawL l).mp hl
  subst hpb
  subst hlb
  have hgt : checkGt 0 person_id = none := by
    unfold checkGt
    rw [if_neg (by omega)]
  unfold update_person
  rw [hgt, hpe, hle]
  rfl

/-- C2: PUT /person/123 with successfully bound Person and Location bodies
returns 200 with a single merged map holding every Person field — password
included, as this path performs no exclusion — plus every Location field,
in declaration order. -/
theorem update_person_merged_map (rawP : RawPerson) (rawL : RawLocation)
    (today : Date) (p : Person) (l : Location)
    (hp : validatePerson rawP today = Except.ok p)
    (hl : validateLocation rawL = Except.ok l) :
    update_person 123 rawP rawL today =
      HandlerResult.success 200 (personDict p ++ locationDict l) ∧
    (personDict p ++ locationDict l).map Prod.fst =
      ["first_name", "last_name", "age", "hair_color", "is_married",
       "personal_website", "date_of_birth", "email", "password",
       "city", "state", "country"] ∧
    ("password", Value.str p.password) ∈ personDict p ++ locationDict l := by
  refine ⟨update_person_success 123 rawP rawL today p l (by norm_num) hp hl,
    rfl, ?_⟩
  simp [personDict, locationDict]

/-- C2 witness: the sample bodies at person_id 123. -/
theorem update_person_merged_map_witness :
    validatePerson sampleRawPerson sampleToday =
      Except.ok (boundPerson sampleRawPerson) ∧
    validateLocation sampleRawLocation =
      Except.ok (boundLocation sampleRawLocation) ∧
    (update_person 123 sampleRawPerson sampleRawLocation sampleToday =
      HandlerResult.success 200 (personDict (boundPerson sampleRawPerson) ++
        locationDict (boundLocation sampleRawLocation)) ∧
    (personDict (boundPerson sampleRawPerson) ++
      locationDict (boundLocation sampleRawLocation)).map Prod.fst =
      ["first_name", "last_name", "age", "hair_color", "is_married",
       "personal_website", "date_of_birth", "email", "password",
       "city", "state", "country"] ∧
    ("password", Value.str (boundPerson sampleRawPerson).password) ∈
      personDict (boundPerson sampleRawPerson) ++
        locationDict (boundLocation sampleRawLocation)) :=
  ⟨rfl, rfl,
    update_person_merged_map sampleRawPerson sampleRawLocation sampleToday
      (boundPerson sampleRawPerson) (boundLocation sampleRawLocation) rfl rfl⟩

/-- C9: PUT /person/person_id consults no registry: any positive
person_id, members of the fixed registry or not, with successfully bound
bodies returns 200 and never yields an HTTPException. -/
theorem update_person_no_existence_check (person_id : Int)
    (rawP : RawPerson) (rawL : RawLocation) (today : Date)
    (p : Person) (l : Location) (hpid : 0 < person_id)
    (hp : validatePerson rawP today = Except.ok p)
    (hl : validateLocation rawL = Except.ok l) :
    update_person person_id rawP rawL today =
      HandlerResult.success 200 (personDict p ++ locationDict l) ∧
    (∀ st d, update_person person_id rawP rawL today ≠
      HandlerResult.httpError st d) := by
  have h := update_person_success person_id rawP rawL today p l hpid hp hl
  refine ⟨h, ?_⟩
  intro st d hc
  rw [h] at hc
  exact HandlerResult.noConfusion hc

/-- C9 witness: person_id 999, not a registry member, still succeeds. -/
theorem update_person_no_existence_check_witness :
    (0 : Int) < 999 ∧ (999 : Int) ∉ persons ∧
    (update_person 999 sampleRawPerson sampleRawLocation sampleToday =
      HandlerResult.success 200 (personDict (boundPerson sampleRawPerson) ++
        locationDict (boundLocation sampleRawLocation)) ∧
    (∀ st d, update_person 999 sampleRawPerson sampleRawLocation sampleToday ≠
      HandlerResult.httpError st d)) :=
  ⟨by decide, by decide,
    update_person_no_existence_check 999 sampleRawPerson sampleRawLocation
      sampleToday (boundPerson sampleRawPerson)
      (boundLocation sampleRawLocation) (by decide) rfl rfl⟩

/-- A LoginOut built by the handler carries exactly the bound username. -/
theorem mkLoginOut_ok (u : String) (lo : LoginOut)
    (h : mkLoginOut u = Except.ok lo) : lo = ⟨u⟩ := by
  unfold mkLoginOut at h
  cases hc : checkMaxLength 20 u <;> rw [hc] at h
  · injection h with h2
    exact h2.symm
  · exact Except.noConfusion h

/-- C8: the login response never depends on the submitted password — the
same username with two different passwords produces identical responses —
and any 200 response is a LoginOut whose only field is the username. -/
theorem login_ignores_password (u p1 p2 : String) :
    login u p1 = login u p2 ∧
    (∀ r, login u p1 = Except.ok r →
      ∃ lo : LoginOut, r = HandlerResult.success 200 lo ∧ lo.username = u ∧
        loginOutDict lo = [("username", Value.str u)]) := by
  have login_eq : ∀ pw, login u pw =
      Except.map (HandlerResult.success 200) (mkLoginOut u) := by
    intro pw
    cases hm : mkLoginOut u <;>
      simp [login, bind_login_form, Except.map, hm]
  refine ⟨rfl, ?_⟩
  intro r hr
  rw [login_eq p1] at hr
  rcases hm : mkLoginOut u with e | lo
  · rw [hm] at hr
    exact Except.noConfusion hr
  · rw [hm] at hr
    injection hr with h2
    refine ⟨lo, h2.symm, ?_, ?_⟩
    · rw [mkLoginOut_ok u lo hm]
    · rw [mkLoginOut_ok u lo hm]
      rfl

/-- C8 witness: the sample username with two different passwords. -/
theorem login_ignores_password_witness :
    login "salmeron_dev" "pw1" = login "salmeron_dev" "pw2" ∧
    login "salmeron_dev" "pw1" =
      Except.ok (HandlerResult.success 200 ⟨"salmeron_dev"⟩) ∧
    (∃ lo : LoginOut,
      HandlerResult.success 200 (⟨"salmeron_dev"⟩ : LoginOut) =
        HandlerResult.success 200 lo ∧ lo.username = "salmeron_dev" ∧
      loginOutDict lo = [("username", Value.str "salmeron_dev")]) :=
  ⟨(login_ignores_password "salmeron_dev" "pw1" "pw2").1, rfl,
    (login_ignores_password "salmeron_dev" "pw1" "pw2").2
      (HandlerResult.success 200 ⟨"salmeron_dev"⟩) rfl⟩
